import Mathlib

/-!
Verification of the GABRIEL-PI/login repository (Playwright-driven Google Ad
Manager automation) against its natural-language specification.

The repository's code is asynchronous browser automation.  We embed it
shallowly: every interaction with the outside world (navigation, DOM
queries, clicks, screenshots, browser launch/close) is modelled by an
explicit environment record stating the outcome of that interaction
(success, failure, resulting URL, ...), and each translated function
returns the event trace it produced together with either a normal result
or, via `Except`, a Python exception escaping it.  Pure fragments of the
code (string containment checks, the `sameSite` cookie normalization, the
cookie export/import field mappings) are translated directly as pure
functions.
-/

namespace Login

/-! ## String primitives

Python's `needle in haystack` substring test, `str.lower`, `str.capitalize`
and `str.startswith(".")`, modelled over the character lists of Lean
strings so that everything kernel-evaluates. -/

/-- Boolean list-prefix test on characters. -/
def isPrefixOfB : List Char → List Char → Bool
  | [], _ => true
  | _ :: _, [] => false
  | a :: as, b :: bs => a == b && isPrefixOfB as bs

/-- Boolean list-infix test on characters. -/
def isInfixOfB (n : List Char) (hs : List Char) : Bool :=
  match hs with
  | [] => isPrefixOfB n []
  | _ :: t => isPrefixOfB n hs || isInfixOfB n t

/-- Python's `needle in haystack` substring containment. -/
def strIn (needle haystack : String) : Bool :=
  isInfixOfB needle.data haystack.data

/-- Python's `str.lower()` (ASCII, which covers every value the code
lowers). -/
def pyLower (s : String) : String :=
  String.mk (s.data.map Char.toLower)

/-- Python's `str.capitalize()`: first character upper-cased, the rest
lower-cased (ASCII). -/
def pyCapitalize (s : String) : String :=
  match s.data with
  | [] => ""
  | c :: cs => String.mk (c.toUpper :: cs.map Char.toLower)

/-- Python's `str.startswith(".")`. -/
def startsWithDot (s : String) : Bool :=
  match s.data with
  | [] => false
  | c :: _ => c == '.'

/-! ## Cookie codec (`src/import_cookies.py`, `src/export_cookies.py`) -/

/-- The JSON value found under a cookie's `sameSite` key: the key may be
absent, hold JSON `null`, or hold a string.  `cookie.get("sameSite", "Lax")`
in `import_cookies.py` yields `"Lax"` for `absent`, Python `None` for
`null`, and the string itself otherwise. -/
inductive SameSiteSrc where
  | absent
  | null
  | val (s : String)
deriving DecidableEq

/-- The `sameSite` normalization of `import_cookies.py` lines 45-54:

```
same_site = cookie.get("sameSite", "Lax")
if same_site in ["unspecified", "no_restriction", None, ""]:
    same_site = "None" if cookie.get("secure", False) else "Lax"
else:
    same_site = same_site.capitalize()
if same_site not in ["Strict", "Lax", "None"]:
    same_site = "Lax"
```
-/
def normalizeSameSite (src : SameSiteSrc) (secure : Bool) : String :=
  let step1 : String :=
    match src with
    | .null => if secure then "None" else "Lax"
    | .absent =>
      -- `cookie.get` default "Lax" is not in the ambiguous list, so it is
      -- capitalized like any other string.
      pyCapitalize "Lax"
    | .val s =>
      if s = "unspecified" ∨ s = "no_restriction" ∨ s = "" then
        if secure then "None" else "Lax"
      else
        pyCapitalize s
  if step1 = "Strict" ∨ step1 = "Lax" ∨ step1 = "None" then step1 else "Lax"

/-- A cookie as returned by Playwright's `browser.cookies()`.  Fields the
code reads with `cookie[...]` are plain, fields read with `cookie.get(...)`
are `Option`.  `expires` is modelled as an integer; the claims explicitly
exclude expiry drift. -/
structure BrowserCookie where
  name : String
  value : String
  domain : String
  path : String
  expires : Option Int
  httpOnly : Option Bool
  secure : Option Bool
  sameSite : Option String
deriving DecidableEq

/-- A cookie in the portable browser-extension JSON format written by
`export_cookies.py` and read by `import_cookies.py`. -/
structure PortableCookie where
  domain : String
  expirationDate : Option Int
  hostOnly : Option Bool
  httpOnly : Option Bool
  name : String
  path : String
  sameSite : SameSiteSrc
  secure : Option Bool
  session : Option Bool
  storeId : Option String
  value : String
deriving DecidableEq

/-- A cookie in the shape handed to Playwright's `add_cookies` by
`import_cookies.py` lines 56-65. -/
structure PwCookie where
  name : String
  value : String
  domain : String
  path : String
  expires : Int
  httpOnly : Bool
  secure : Bool
  sameSite : String
deriving DecidableEq

/-- The per-cookie export mapping of `export_cookies.py` lines 61-75. -/
def exportCookie (c : BrowserCookie) : PortableCookie :=
  { domain := c.domain
    expirationDate := some (c.expires.getD (-1))
    hostOnly := some (!startsWithDot c.domain)
    httpOnly := some (c.httpOnly.getD false)
    name := c.name
    path := c.path
    sameSite := .val (pyLower (c.sameSite.getD "unspecified"))
    secure := some (c.secure.getD false)
    session := some (c.expires.getD (-1) == -1)
    storeId := some "0"
    value := c.value }

/-- The per-cookie import mapping of `import_cookies.py` lines 44-66. -/
def importCookie (p : PortableCookie) : PwCookie :=
  { name := p.name
    value := p.value
    domain := p.domain
    path := p.path
    expires := p.expirationDate.getD (-1)
    httpOnly := p.httpOnly.getD false
    secure := p.secure.getD false
    sameSite := normalizeSameSite p.sameSite (p.secure.getD false) }

/-! ## Events and results of the browser-driving code -/

/-- Observable interactions with the page performed by the services.  An
event is recorded when the corresponding interaction is attempted
(`screenshot` when the capture succeeds, `screenshotFail` when the capture
itself raises). -/
inductive Ev where
  | goto (url : String)
  | emailStep
  | passwordStep
  | verifyStep
  | branchStart (i : Nat)
  | branchDone (i : Nat)
  | branchCaught (i : Nat)
  | screenshot (file : String)
  | screenshotFail (file : String)
  | strategy (attempt j : Nat)
  | clicked (attempt j : Nat)
  | delay (ms : Nat)
  | fillUrl (u : String)
  | invInteract (t : String)
  | brandInteract (t : String)
  | saveClick
  | close
deriving DecidableEq

/-- The result dictionary `{"data": ..., "success": ..., "message": ...}`
returned by every login operation (`data` is always `None` in
`admanager_service.py`). -/
structure LoginResult where
  data : Option Unit
  success : Bool
  message : String
deriving DecidableEq

/-! ## `_verify_verification_step` (`admanager_service.py` lines 209-418)

The handler starts with an unprotected `mkdir` + `page.screenshot`
(lines 211-216), then runs five blocks, each wrapped in its own
`try/except` that only logs: number detection (lines 218-239), HTML number
detection (lines 241-258), the passkey branch (lines 260-353), the
device-approval challenge branch (lines 355-404), and the generic
confirmation-button branch (lines 406-415).  No branch ever sets a result;
the only `return` is the final unconditional success (line 418).  Each
branch body is abstracted to whether it raises internally (caught at the
branch boundary), which is the only way it can influence control flow. -/

/-- Environment of one `_verify_verification_step` call: whether the
initial (unprotected) screenshot succeeds, and whether each of the five
branch bodies raises internally. -/
structure VerifyEnv where
  preambleOk : Bool
  branchThrows : Nat → Bool

/-- One branch: its body either completes or raises, and a raise is caught
and logged at the branch boundary. -/
def verifyBranch (i : Nat) (throws : Bool) : List Ev :=
  if throws then [Ev.branchStart i, Ev.branchCaught i]
  else [Ev.branchStart i, Ev.branchDone i]

/-- Model of `_verify_verification_step`.  If the initial screenshot raises, the
exception escapes the handler; otherwise all five branches run in order
and the handler returns success unconditionally. -/
def verifyStepRun (env : VerifyEnv) : List Ev × Except String LoginResult :=
  if env.preambleOk then
    (Ev.verifyStep ::
       (verifyBranch 0 (env.branchThrows 0) ++ verifyBranch 1 (env.branchThrows 1) ++
        verifyBranch 2 (env.branchThrows 2) ++ verifyBranch 3 (env.branchThrows 3) ++
        verifyBranch 4 (env.branchThrows 4)),
     .ok ⟨none, true, "Verification step passed"⟩)
  else ([Ev.verifyStep], .error "verification screenshot failed")

/-! ## `_login` (`admanager_service.py` lines 127-207) -/

/-- Environment of one `_login` call: the outcome of every external
interaction the attempt performs. -/
structure LoginEnv where
  /-- Whether `page.goto` succeeds (line 131); on failure the outer handler runs. -/
  gotoOk : Bool
  gotoErr : String
  /-- Value of `page.url` after navigation (line 134). -/
  urlAfterGoto : String
  /-- The email fill/click block (lines 136-144) completes. -/
  emailOk : Bool
  emailErr : String
  /-- The password fill/click block (lines 146-154) completes. -/
  passwordOk : Bool
  passwordErr : String
  verify : VerifyEnv
  /-- Outcome of `wait_for_url("**admanager.google.com**")` (line 167): `some u` means
  the wait succeeded and the page URL is now `u`; `none` means timeout. -/
  redirectUrl : Option String
  /-- Value of `page.url` reported in the timeout message (line 174). -/
  urlAtTimeout : String
  /-- Whether `page.screenshot` in the outer `except` handler (line 202) succeeds;
  that call is not itself protected, so its failure escapes `_login`. -/
  screenshotOk : Bool

/-- The final URL check of `_login` lines 177-196: success requires both
the Ad Manager domain and the network (tenant) id in the current URL.
(The `networkidle` wait of lines 188-193 is wrapped in its own
`try/except` and cannot affect the result.) -/
def finalCheck (network u : String) (t : List Ev) : List Ev × Except String LoginResult :=
  if strIn "admanager.google.com" u && strIn network u then
    (t, .ok ⟨none, true, "Login successful"⟩)
  else
    (t, .ok ⟨none, false,
      "Login verification failed. Expected admanager with network \x27" ++ network ++
        "\x27, got: " ++ u⟩)

/-- The outer `except` handler of `_login` lines 198-207: it captures a
screenshot with no surrounding `try`, so a capture failure escapes the
attempt instead of being logged and ignored. -/
def loginHandler (e : String) (env : LoginEnv) : List Ev × Except String LoginResult :=
  if env.screenshotOk then
    ([Ev.screenshot "login.png"], .ok ⟨none, false, "Authentication error: " ++ e⟩)
  else
    ([Ev.screenshotFail "login.png"], .error "screenshot failed")

/-- One `_login` attempt. -/
def loginAttempt (network : String) (env : LoginEnv) : List Ev × Except String LoginResult :=
  if env.gotoOk then
    let t0 := [Ev.goto ("https://admanager.google.com/" ++ network)]
    if strIn "accounts.google.com" env.urlAfterGoto then
      if env.emailOk then
        if env.passwordOk then
          let vrun := verifyStepRun env.verify
          let t1 := t0 ++ [Ev.emailStep, Ev.passwordStep] ++ vrun.1
          match vrun.2 with
          | .error e =>
            -- the exception from the handler's own screenshot propagates
            -- through the outer `try` of `_login`
            let h := loginHandler e env
            (t1 ++ h.1, h.2)
          | .ok vres =>
            if vres.success then
              match env.redirectUrl with
              | some u => finalCheck network u t1
              | none =>
                (t1, .ok ⟨none, false,
                  "Did not redirect to Ad Manager after verification: " ++ env.urlAtTimeout⟩)
            else (t1, .ok vres)
        else
          (t0 ++ [Ev.emailStep, Ev.passwordStep],
           .ok ⟨none, false, "Failed at password step: " ++ env.passwordErr⟩)
      else
        (t0 ++ [Ev.emailStep],
         .ok ⟨none, false, "Failed at email step: " ++ env.emailErr⟩)
    else
      finalCheck network env.urlAfterGoto t0
  else
    loginHandler env.gotoErr env

/-! ## `_login_with_retry` (`admanager_service.py` lines 107-125) -/

/-- Events of the retry loop itself: a full fresh `_login` invocation
(carrying that attempt's own trace), or the inter-attempt delay. -/
inductive RetryEv where
  | attempt (i : Nat) (t : List Ev)
  | delay (ms : Nat)
deriving DecidableEq

/-- Constant `self.max_retries` (line 25). -/
def maxRetries : Nat := 5

/-- Constant `self.retry_delay` in seconds (line 26); the loop waits
`retry_delay * 1000` milliseconds (line 118). -/
def retryDelay : Nat := 10

/-- The loop of `_login_with_retry`: `fuel` counts the remaining iterations
of `for attempt in range(5)` and `i` is the current attempt index.  A
failed attempt is followed by a delay unless it is the last one; an
exception escaping an attempt propagates out of the loop. -/
def loginWithRetryFrom (att : Nat → List Ev × Except String LoginResult) :
    Nat → Nat → List RetryEv × Except String LoginResult
  | _, 0 =>
    -- f"Failed to login after {self.max_retries} attempts" with max_retries = 5
    ([], .ok ⟨none, false, "Failed to login after 5 attempts"⟩)
  | i, f + 1 =>
    match (att i).2 with
    | .error e => ([RetryEv.attempt i (att i).1], .error e)
    | .ok res =>
      if res.success then ([RetryEv.attempt i (att i).1], .ok res)
      else if f = 0 then
        let rest := loginWithRetryFrom att (i + 1) f
        (RetryEv.attempt i (att i).1 :: rest.1, rest.2)
      else
        let rest := loginWithRetryFrom att (i + 1) f
        (RetryEv.attempt i (att i).1 :: RetryEv.delay (retryDelay * 1000) :: rest.1, rest.2)

/-- Model of `_login_with_retry`, over an arbitrary family of attempt outcomes. -/
def loginWithRetry (att : Nat → List Ev × Except String LoginResult) :
    List RetryEv × Except String LoginResult :=
  loginWithRetryFrom att 0 maxRetries

/-! ## `login_only` (`admanager_service.py` lines 28-105) -/

/-- Environment of `login_only`: the browser launch block (lines 32-52,
inside the `try`), the per-attempt environments handed to the retry loop,
and the final `browser.close()`/`pw.stop()` (lines 95-96, inside the
`try`).  The cookie-export block (lines 61-89) is wrapped in its own
`try/except` that only logs, so it cannot affect the result. -/
structure LoginOnlyEnv where
  launchOk : Bool
  attempts : Nat → LoginEnv
  closeOk : Bool

/-- The body of `login_only`'s `try` block. -/
def loginOnlyBody (network : String) (env : LoginOnlyEnv) : Except String LoginResult :=
  if env.launchOk then
    match (loginWithRetry (fun i => loginAttempt network (env.attempts i))).2 with
    | .error e => .error e
    | .ok r => if env.closeOk then .ok r else .error "browser close failed"
  else .error "browser launch failed"

/-- Model of `login_only`: the whole body runs inside `try`, and the `except`
handler (lines 99-105) normalizes any exception to a failure result. -/
def loginOnly (network : String) (env : LoginOnlyEnv) : Except String LoginResult :=
  match loginOnlyBody network env with
  | .ok r => .ok r
  | .error e => .ok ⟨none, false, "Demo login error: " ++ e⟩

/-! ## `check_logged_in` (`src/check_login.py` lines 39-103) -/

/-- Environment of `check_logged_in`.  The profile-directory `mkdir`
(line 42) and the whole browser launch (lines 48-63) happen before the
`try` block, so their exceptions escape the function. -/
structure CheckEnv where
  mkdirOk : Bool
  launchOk : Bool
  /-- Whether `page.goto` (line 67) succeeds; on failure the `except` branch runs. -/
  gotoOk : Bool
  /-- Value of `page.url` after the settle waits (line 76). -/
  finalUrl : String
  /-- Whether `browser.close()` / `pw.stop()` succeed. -/
  closeOk : Bool

/-- The URL verdict of `check_logged_in` lines 82-97: not logged in on the
identity provider's domain; logged in on any `admanager.google.com` URL,
with or without the network id. -/
def checkVerdict (url network : String) : Bool :=
  if strIn "accounts.google.com" url then false
  else if strIn "admanager.google.com" url && strIn network url then true
  else if strIn "admanager.google.com" url then true
  else false

/-- Model of `check_logged_in`.  A launch failure escapes (it happens before the
`try`); an exception inside the `try` is caught, the browser is closed and
`False` is returned (lines 98-103). -/
def checkLoggedIn (network : String) (env : CheckEnv) : List Ev × Except String Bool :=
  if env.mkdirOk then
    if env.launchOk then
      if env.gotoOk then
        if env.closeOk then ([Ev.close], .ok (checkVerdict env.finalUrl network))
        else
          -- `browser.close()` raising inside the `try` reaches the
          -- `except` branch, whose own `browser.close()` raises again
          ([], .error "browser close failed")
      else
        if env.closeOk then ([Ev.close], .ok false)
        else ([], .error "browser close failed")
    else ([], .error "browser launch failed")
  else ([], .error "mkdir failed")

/-- The interactive authentication steps of a login attempt. -/
def isAuthStep : Ev → Bool
  | .emailStep => true
  | .passwordStep => true
  | .verifyStep => true
  | _ => false

/-- Screenshot capture attempts (successful or failed). -/
def isShot : Ev → Bool
  | .screenshot _ => true
  | .screenshotFail _ => true
  | _ => false

/-- Concrete `_login` environment used to exhibit a failed attempt on the
email step. -/
def emailFailEnv : LoginEnv :=
  { gotoOk := true, gotoErr := "", urlAfterGoto := "https://accounts.google.com/v3/signin"
    emailOk := false, emailErr := "timeout", passwordOk := true, passwordErr := ""
    verify := { preambleOk := true, branchThrows := fun _ => false }
    redirectUrl := none, urlAtTimeout := "", screenshotOk := true }

/-- A `_login` environment whose navigation ends directly at `url`. -/
def mkLoginUrlEnv (url : String) : LoginEnv :=
  { gotoOk := true, gotoErr := "", urlAfterGoto := url, emailOk := true, emailErr := ""
    passwordOk := true, passwordErr := ""
    verify := { preambleOk := true, branchThrows := fun _ => false }
    redirectUrl := none, urlAtTimeout := "", screenshotOk := true }

/-- A `check_logged_in` environment whose navigation ends at `url`. -/
def mkCheckUrlEnv (url : String) : CheckEnv :=
  { mkdirOk := true, launchOk := true, gotoOk := true, finalUrl := url, closeOk := true }

/-- A `check_logged_in` environment whose browser launch raises. -/
def launchFailCheckEnv : CheckEnv :=
  { mkdirOk := true, launchOk := false, gotoOk := true, finalUrl := "", closeOk := true }

/-! ## `create_url_button` (`create_url_service.py` lines 183-256)

The four selector strategies for the "Novo URL" button are each wrapped in
their own `try/except`; the first one whose wait-and-click completes
returns from the function.  If all four fail the whole operation is
retried (with a 1s pause) up to `max_attempts = 3` total attempts, after
which the function raises an exception naming the control. -/

/-- Environment of `create_url_button`: whether `page.is_closed()` reports
a closed page, and whether strategy `j` (1-4) of attempt `a` (0-2)
completes without raising. -/
structure ButtonEnv where
  pageClosed : Bool
  strat : Nat → Nat → Bool

/-- One pass over the four strategies of attempt `a`: the trace records
every strategy invoked, and the result is the first successful strategy's
index, if any. -/
def tryStrategies (env : ButtonEnv) (a : Nat) : List Ev × Option Nat :=
  if env.strat a 1 then ([Ev.strategy a 1, Ev.clicked a 1], some 1)
  else if env.strat a 2 then
    ([Ev.strategy a 1, Ev.strategy a 2, Ev.clicked a 2], some 2)
  else if env.strat a 3 then
    ([Ev.strategy a 1, Ev.strategy a 2, Ev.strategy a 3, Ev.clicked a 3], some 3)
  else if env.strat a 4 then
    ([Ev.strategy a 1, Ev.strategy a 2, Ev.strategy a 3, Ev.strategy a 4,
      Ev.clicked a 4], some 4)
  else
    ([Ev.strategy a 1, Ev.strategy a 2, Ev.strategy a 3, Ev.strategy a 4], none)

/-- The `for attempt in range(3)` loop of `create_url_button`; `fuel` is
the number of remaining attempts and `a` the current attempt index. -/
def buttonLoop (env : ButtonEnv) : Nat → Nat → List Ev × Except String Unit
  | _, 0 => ([], .error "Could not find \x27Novo URL\x27 button after 3 attempts")
  | a, f + 1 =>
    match tryStrategies env a with
    | (t, some _) => (t, .ok ())
    | (t, none) =>
      if f = 0 then (t, .error "Could not find \x27Novo URL\x27 button after 3 attempts")
      else
        let rest := buttonLoop env (a + 1) f
        (t ++ Ev.delay 1000 :: rest.1, rest.2)

/-- Model of `create_url_button`. -/
def createUrlButton (env : ButtonEnv) : List Ev × Except String Unit :=
  if env.pageClosed then ([], .error "Page is closed or invalid")
  else buttonLoop env 0 3

/-! ## `create_url` form logic (`create_url_service.py` lines 28-144 and
258-543)

The strategy/retry pattern is modelled in full detail for
`create_url_button` above; for the other controls (`_set_url_field`,
`_set_inventory_type`, `_set_brand_type`, `_save_url`) it is abstracted to
the outcome of the whole interaction (one environment flag each), which
preserves exactly what the claims depend on: where each function validates
its argument relative to its UI interactions, and which exception
ultimately escapes. -/

/-- The `url_data` record (`URLData` TypedDict, `total=False`, so every
key may be absent). -/
structure URLData where
  url : Option String
  inventory_type : Option String
  brand_type : Option String
  id : Option String
deriving DecidableEq

/-- The echo of the created resource returned on success
(`create_url_service.py` lines 265-269). -/
structure UrlEcho where
  url : String
  inventory_type : String
  brand_type : String
deriving DecidableEq

/-- The result dictionary returned by the create-URL operation. -/
structure ActionResult where
  data : Option UrlEcho
  success : Bool
  message : String
deriving DecidableEq

/-- Environment of `_create_url_safe` and the helpers it calls. -/
structure CreateSafeEnv where
  /-- Whether `page.goto` (line 92) succeeds. -/
  gotoOk : Bool
  gotoErr : String
  /-- Value of `page.url` after navigation (line 94). -/
  pageUrl : String
  btn : ButtonEnv
  /-- The URL-field interaction (strategies and retries of
  `_set_url_field`) ultimately succeeds. -/
  urlFillOk : Bool
  /-- The inventory-type dropdown interaction ultimately succeeds. -/
  invOk : Bool
  /-- The brand-type radio interaction ultimately succeeds. -/
  brandOk : Bool
  /-- The save-button interaction ultimately succeeds. -/
  saveOk : Bool
  /-- The screenshot in `_create_url_safe`'s handler (line 135) succeeds;
  unlike in `_login`, that capture has its own `try/except`. -/
  screenshotOk : Bool

/-- Model of `_set_url_field` lines 305-374: an empty URL raises `ValueError`
before any interaction; otherwise the field is filled (or the exhausted
strategy retries raise). -/
def setUrlField (ok : Bool) (url : String) : List Ev × Except String Unit :=
  if url = "" then ([], .error "URL cannot be empty")
  else ([Ev.fillUrl url],
    if ok then .ok () else .error "Could not find URL input field after 3 attempts")

/-- Model of `_set_inventory_type` lines 376-477: an out-of-enumeration value
raises `ValueError` before any dropdown interaction. -/
def setInventoryType (ok : Bool) (t : String) : List Ev × Except String Unit :=
  if t = "Display" ∨ t = "Vídeo in-stream" then
    ([Ev.invInteract t],
     if ok then .ok ()
     else .error ("Could not find option \x27" ++ t ++ "\x27 in dropdown"))
  else
    ([], .error "Invalid inventory type. Must be one of: [\x27Display\x27, \x27Vídeo in-stream\x27]")

/-- Model of `_set_brand_type` lines 479-543: an out-of-enumeration value raises
`ValueError` before any radio interaction. -/
def setBrandType (ok : Bool) (t : String) : List Ev × Except String Unit :=
  if t = "Com marca" ∨ t = "semitransparente" then
    ([Ev.brandInteract t],
     if ok then .ok ()
     else .error ("Could not find brand type option \x27" ++ t ++ "\x27 after 3 attempts"))
  else
    ([], .error "Invalid brand type. Must be one of: [\x27Com marca\x27, \x27semitransparente\x27]")

/-- Model of `_save_url` lines 545-627 (the dismiss-dialog block swallows its own
exceptions). -/
def saveUrl (ok : Bool) : List Ev × Except String Unit :=
  if ok then ([Ev.saveClick], .ok ())
  else ([], .error "Could not find \x27Salvar\x27 button after 3 attempts")

/-- Model of `configure_url` lines 281-303: URL field, then inventory type, then
brand type, then save; the first exception propagates (the function's own
`except` only logs and re-raises). -/
def configureUrl (data : URLData) (env : CreateSafeEnv) : List Ev × Except String Unit :=
  let u := setUrlField env.urlFillOk (data.url.getD "")
  match u.2 with
  | .error e => (u.1, .error e)
  | .ok _ =>
    let i := setInventoryType env.invOk (data.inventory_type.getD "Display")
    match i.2 with
    | .error e => (u.1 ++ i.1, .error e)
    | .ok _ =>
      let b := setBrandType env.brandOk (data.brand_type.getD "Com marca")
      match b.2 with
      | .error e => (u.1 ++ i.1 ++ b.1, .error e)
      | .ok _ =>
        let s := saveUrl env.saveOk
        (u.1 ++ i.1 ++ b.1 ++ s.1, s.2)

/-- Model of `_configure_url_safe` lines 258-279. -/
def configureUrlSafe (data : URLData) (env : CreateSafeEnv) : List Ev × ActionResult :=
  match configureUrl data env with
  | (t, .ok _) =>
    (t, ⟨some ⟨data.url.getD "", data.inventory_type.getD "", data.brand_type.getD ""⟩,
      true, "URL created and saved successfully"⟩)
  | (t, .error e) => (t, ⟨none, false, "Failed to configure URL: " ++ e⟩)

/-- Model of `_click_new_url_button_safe` lines 166-181. -/
def clickNewUrlButtonSafe (env : ButtonEnv) : List Ev × ActionResult :=
  match createUrlButton env with
  | (t, .ok _) => (t, ⟨none, true, "New URL button clicked successfully"⟩)
  | (t, .error e) => (t, ⟨none, false, "Failed to click new URL button: " ++ e⟩)

/-- Model of the `except` handler of `_create_url_safe` (lines 128-144): the screenshot
attempt is wrapped in its own `try/except`, so its failure is logged and
the failure result is returned either way. -/
def createUrlFailHandler (data : URLData) (env : CreateSafeEnv) (e : String) :
    List Ev × ActionResult :=
  let file := "error_url_" ++ data.id.getD "unknown" ++ ".png"
  if env.screenshotOk then
    ([Ev.screenshot file], ⟨none, false, "Failed to create URL: " ++ e⟩)
  else
    ([Ev.screenshotFail file], ⟨none, false, "Failed to create URL: " ++ e⟩)

/-- Model of `_create_url_safe` lines 82-144 (the `_close_dialogs` helpers swallow
all their exceptions and are result-irrelevant). -/
def createUrlSafe (network : String) (data : URLData) (env : CreateSafeEnv) :
    List Ev × ActionResult :=
  if env.gotoOk then
    let t0 := [Ev.goto ("https://admanager.google.com/" ++ network ++ "#inventory/url/list")]
    if strIn "accounts.google.com" env.pageUrl then
      (t0, ⟨none, false,
        "Session expired. Please run \x27python demo_login.py\x27 or \x27python import_cookies.py\x27 first."⟩)
    else if strIn network env.pageUrl then
      let b := clickNewUrlButtonSafe env.btn
      if b.2.success then
        let c := configureUrlSafe data env
        (t0 ++ b.1 ++ c.1, c.2)
      else (t0 ++ b.1, b.2)
    else
      (t0, ⟨none, false,
        "Navigation failed. Could not reach URL list page for network: " ++ network⟩)
  else createUrlFailHandler data env env.gotoErr

/-- Environment of the public `create_url` operation. -/
structure CreateEnv where
  launchOk : Bool
  safe : CreateSafeEnv
  closeOk : Bool

/-- The body of `create_url`'s `try` block (lines 44-72). -/
def createUrlBody (network : String) (data : URLData) (env : CreateEnv) :
    Except String ActionResult :=
  if env.launchOk then
    let r := (createUrlSafe network data env.safe).2
    if env.closeOk then .ok r else .error "browser close failed"
  else .error "browser launch failed"

/-- Model of `create_url` lines 28-80: the whole body runs inside `try` and the
`except` handler normalizes any exception to a failure result. -/
def createUrl (network : String) (data : URLData) (env : CreateEnv) :
    Except String ActionResult :=
  match createUrlBody network data env with
  | .ok r => .ok r
  | .error e => .ok ⟨none, false, "Error creating URL: " ++ e⟩

/-- A `CreateSafeEnv` on the URL-list page of the given network, where
selector strategy 1 always succeeds and every field interaction works. -/
def happyCreateEnv (network : String) : CreateSafeEnv :=
  { gotoOk := true, gotoErr := "", pageUrl := "https://admanager.google.com/" ++ network ++ "#inventory/url/list"
    btn := { pageClosed := false, strat := fun _ j => j = 1 }
    urlFillOk := true, invOk := true, brandOk := true, saveOk := true, screenshotOk := true }

/-- A `url_data` whose `inventory_type` is outside its enumeration. -/
def invalidInventoryData : URLData :=
  { url := some "https://example.com", inventory_type := some "Banana"
    brand_type := some "Com marca", id := some "42" }

/-- A `_login` environment whose navigation raises, with a working
screenshot in the failure handler. -/
def gotoFailEnv : LoginEnv :=
  { gotoOk := false, gotoErr := "net down", urlAfterGoto := "", emailOk := true, emailErr := ""
    passwordOk := true, passwordErr := ""
    verify := { preambleOk := true, branchThrows := fun _ => false }
    redirectUrl := none, urlAtTimeout := "", screenshotOk := true }

/-- Button environment where only selector strategy 3 works. -/
def stratThreeEnv : ButtonEnv := { pageClosed := false, strat := fun _ j => j == 3 }

/-- Button environment where every selector strategy fails. -/
def stratNoneEnv : ButtonEnv := { pageClosed := false, strat := fun _ _ => false }

end Login

namespace Login

/-! ## Theorems for claims C3 and C4 -/

/-- Claim C3: the `sameSite` normalization performed by cookie import is
total — for every source value (in particular every value of
{"unspecified", "no_restriction", "", null, "lax", "strict", "none"}
written in any letter case) it yields exactly one value of
{Strict, Lax, None} — and the output depends on the cookie's `secure` flag
only when the source value is ambiguous (an absent/null value, the empty
string, "unspecified", or "no_restriction"). -/
theorem sameSite_normalization_total :
    (∀ src secure, normalizeSameSite src secure ∈ (["Strict", "Lax", "None"] : List String)) ∧
    (∀ src, normalizeSameSite src true ≠ normalizeSameSite src false →
      src = SameSiteSrc.null ∨ src = .val "" ∨ src = .val "unspecified" ∨
        src = .val "no_restriction") := by
  constructor
  · intro src secure
    unfold normalizeSameSite
    cases src with
    | null => cases secure <;> simp
    | absent => simp [pyCapitalize]
    | val s =>
      by_cases h : s = "unspecified" ∨ s = "no_restriction" ∨ s = ""
      · simp only [h, if_true]
        cases secure <;> simp
      · simp only [h, if_false]
        by_cases h2 : pyCapitalize s = "Strict" ∨ pyCapitalize s = "Lax" ∨
            pyCapitalize s = "None"
        · simp only [h2, if_true]
          simpa using h2
        · simp [h2]
  · intro src h
    cases src with
    | null => exact Or.inl rfl
    | absent => simp [normalizeSameSite, pyCapitalize] at h
    | val s =>
      by_cases hm : s = "unspecified" ∨ s = "no_restriction" ∨ s = ""
      · rcases hm with hm | hm | hm
        · exact Or.inr (Or.inr (Or.inl (by rw [hm])))
        · exact Or.inr (Or.inr (Or.inr (by rw [hm])))
        · exact Or.inr (Or.inl (by rw [hm]))
      · exfalso
        apply h
        simp [normalizeSameSite, hm]

/-- Witness for C3: instantiates both conjuncts at concrete inputs; the
second conjunct's hypothesis (the output genuinely depends on `secure`) is
discharged for the JSON-null source value. -/
theorem sameSite_normalization_total_witness :
    normalizeSameSite (.val "LAX") true ∈ (["Strict", "Lax", "None"] : List String) ∧
    (SameSiteSrc.null = SameSiteSrc.null ∨ SameSiteSrc.null = .val "" ∨
      SameSiteSrc.null = .val "unspecified" ∨ SameSiteSrc.null = .val "no_restriction") :=
  ⟨sameSite_normalization_total.1 (.val "LAX") true,
   sameSite_normalization_total.2 .null (by decide)⟩

/-- Claim C4: for every cookie carried through export (browser cookie →
portable JSON) followed by import (portable JSON → browser cookie), the
domain, path, name and value fields are preserved exactly, and so is the
normalized `sameSite` enum value (the browser cookie's `sameSite`, which
Playwright reports as one of the three enum values). -/
theorem cookie_roundtrip_preserves_fields (c : BrowserCookie) :
    (importCookie (exportCookie c)).name = c.name ∧
    (importCookie (exportCookie c)).value = c.value ∧
    (importCookie (exportCookie c)).domain = c.domain ∧
    (importCookie (exportCookie c)).path = c.path ∧
    (∀ v, c.sameSite = some v → v ∈ (["Strict", "Lax", "None"] : List String) →
      (importCookie (exportCookie c)).sameSite = v) := by
  refine ⟨rfl, rfl, rfl, rfl, ?_⟩
  intro v hv hmem
  simp only [List.mem_cons, List.mem_singleton, List.not_mem_nil, or_false] at hmem
  rcases hmem with h | h | h <;>
    subst h <;>
    simp [importCookie, exportCookie, hv, normalizeSameSite, pyLower, pyCapitalize]

/-- Witness for C4: the round trip evaluated on a concrete cookie with
`sameSite = "Strict"`. -/
theorem cookie_roundtrip_preserves_fields_witness :
    (importCookie (exportCookie
        { name := "SID", value := "abc", domain := ".google.com", path := "/",
          expires := some 1700000000, httpOnly := some true, secure := some true,
          sameSite := some "Strict" })).sameSite = "Strict" :=
  (cookie_roundtrip_preserves_fields
    { name := "SID", value := "abc", domain := ".google.com", path := "/",
      expires := some 1700000000, httpOnly := some true, secure := some true,
      sameSite := some "Strict" }).2.2.2.2 "Strict" rfl (by decide)

/-! ## Helper lemmas about the login models -/

theorem verifyBranch_filter_isAuthStep (i : Nat) (b : Bool) :
    (verifyBranch i b).filter isAuthStep = [] := by
  cases b <;> rfl

theorem branchStart_mem_verifyBranch (i : Nat) (b : Bool) :
    Ev.branchStart i ∈ verifyBranch i b := by
  cases b <;> simp [verifyBranch]

theorem verifyStepRun_filter_isAuthStep (v : VerifyEnv) :
    (verifyStepRun v).1.filter isAuthStep = [Ev.verifyStep] := by
  unfold verifyStepRun
  cases hp : v.preambleOk <;>
    simp [List.filter_append, verifyBranch_filter_isAuthStep, isAuthStep]

theorem finalCheck_fst (n u : String) (t : List Ev) : (finalCheck n u t).1 = t := by
  unfold finalCheck
  split <;> rfl

theorem loginHandler_fst_filter_isAuthStep (e : String) (env : LoginEnv) :
    (loginHandler e env).1.filter isAuthStep = [] := by
  unfold loginHandler
  split <;> rfl

theorem createUrlFailHandler_snd (data : URLData) (env : CreateSafeEnv) (e : String) :
    (createUrlFailHandler data env e).2 =
      ⟨none, false, "Failed to create URL: " ++ e⟩ := by
  unfold createUrlFailHandler
  split <;> rfl

/-! ## Theorem for claim C1 -/

/-- Claim C1: if every individual login attempt returns a failure result,
`_login_with_retry` performs exactly 5 full attempts (each a fresh
invocation of the login step, restarted from the beginning), with a
10-second delay between consecutive attempts, and then returns a failure
result whose message reports the exhausted attempt cap — it never retries
indefinitely. -/
theorem login_retry_cap (att : Nat → List Ev × Except String LoginResult)
    (h : ∀ i, i < 5 → ∃ res, (att i).2 = .ok res ∧ res.success = false) :
    (loginWithRetry att).2 = .ok ⟨none, false, "Failed to login after 5 attempts"⟩ ∧
    (loginWithRetry att).1 =
      [RetryEv.attempt 0 (att 0).1, RetryEv.delay 10000,
       RetryEv.attempt 1 (att 1).1, RetryEv.delay 10000,
       RetryEv.attempt 2 (att 2).1, RetryEv.delay 10000,
       RetryEv.attempt 3 (att 3).1, RetryEv.delay 10000,
       RetryEv.attempt 4 (att 4).1] := by
  obtain ⟨r0, h0, s0⟩ := h 0 (by omega)
  obtain ⟨r1, h1, s1⟩ := h 1 (by omega)
  obtain ⟨r2, h2, s2⟩ := h 2 (by omega)
  obtain ⟨r3, h3, s3⟩ := h 3 (by omega)
  obtain ⟨r4, h4, s4⟩ := h 4 (by omega)
  have e5 : maxRetries = 4 + 1 := rfl
  constructor <;>
    · simp only [loginWithRetry, e5, loginWithRetryFrom, h0, h1, h2, h3, h4,
        s0, s1, s2, s3, s4, retryDelay]
      norm_num [loginWithRetryFrom, h1, h2, h3, h4, s1, s2, s3, s4]

/-- Witness for C1: the retry loop run against an attempt that always
fails immediately. -/
theorem login_retry_cap_witness :
    (loginWithRetry fun _ => ([], .ok ⟨none, false, "boom"⟩)).2 =
      .ok ⟨none, false, "Failed to login after 5 attempts"⟩ ∧
    (loginWithRetry fun _ => ([], .ok ⟨none, false, "boom"⟩)).1 =
      [RetryEv.attempt 0 [], RetryEv.delay 10000, RetryEv.attempt 1 [],
       RetryEv.delay 10000, RetryEv.attempt 2 [], RetryEv.delay 10000,
       RetryEv.attempt 3 [], RetryEv.delay 10000, RetryEv.attempt 4 []] :=
  login_retry_cap (fun _ => ([], .ok ⟨none, false, "boom"⟩))
    (fun _ _ => ⟨⟨none, false, "boom"⟩, rfl, rfl⟩)

/-! ## Theorem for claim C2 -/

/-- Claim C2: in a single `_login` attempt, when navigation ends on the
identity provider's domain (`accounts.google.com`) exactly the email →
password → verification sequence executes, in that order; when navigation
ends on the Ad Manager domain with the network id present in the URL, the
attempt short-circuits directly to a success result without executing any
of the email, password or verification steps. -/
theorem login_state_machine_paths (net : String) (env : LoginEnv) :
    (env.gotoOk = true → strIn "accounts.google.com" env.urlAfterGoto = true →
      env.emailOk = true → env.passwordOk = true →
      (loginAttempt net env).1.filter isAuthStep =
        [Ev.emailStep, Ev.passwordStep, Ev.verifyStep]) ∧
    (env.gotoOk = true → strIn "accounts.google.com" env.urlAfterGoto = false →
      strIn "admanager.google.com" env.urlAfterGoto = true →
      strIn net env.urlAfterGoto = true →
      (loginAttempt net env).2 = .ok ⟨none, true, "Login successful"⟩ ∧
      (loginAttempt net env).1.filter isAuthStep = []) := by
  constructor
  · intro hg hacc he hp
    unfold loginAttempt
    rw [hg, hacc, he, hp]
    simp only [if_true]
    cases hpre : env.verify.preambleOk
    · simp [verifyStepRun, hpre, List.filter_append, isAuthStep,
        loginHandler_fst_filter_isAuthStep]
    · simp [verifyStepRun, hpre, List.filter_append, isAuthStep,
        verifyBranch_filter_isAuthStep, finalCheck_fst]
      cases env.redirectUrl <;>
        simp [finalCheck_fst, List.filter_append, isAuthStep, verifyBranch_filter_isAuthStep]
  · intro hg hacc hadm hnet
    unfold loginAttempt
    rw [hg, hacc]
    simp [finalCheck, hadm, hnet, isAuthStep]

/-- Witness for C2: both paths evaluated at concrete environments. -/
theorem login_state_machine_paths_witness :
    (loginAttempt "23128820367"
        (mkLoginUrlEnv "https://accounts.google.com/v3/signin")).1.filter isAuthStep =
      [Ev.emailStep, Ev.passwordStep, Ev.verifyStep] ∧
    (loginAttempt "23128820367"
        (mkLoginUrlEnv "https://admanager.google.com/23128820367/home")).2 =
      .ok ⟨none, true, "Login successful"⟩ :=
  ⟨(login_state_machine_paths "23128820367"
      (mkLoginUrlEnv "https://accounts.google.com/v3/signin")).1
      rfl (by decide) rfl rfl,
   ((login_state_machine_paths "23128820367"
      (mkLoginUrlEnv "https://admanager.google.com/23128820367/home")).2
      rfl (by decide) (by decide) (by decide)).1⟩

/-! ## Theorem for claim C6 -/

/-- Claim C6: `_verify_verification_step` returns a success result
unconditionally once all of its branches have been attempted (detecting no
challenge is also success), and every exception raised inside a branch is
caught and logged without aborting the handler, so subsequent branches
still run and the handler never yields a failure to its caller.  (The
hypothesis states that the handler's initial debug screenshot — taken
before any branch — does not itself raise.) -/
theorem verification_handler_best_effort (env : VerifyEnv)
    (h : env.preambleOk = true) :
    (verifyStepRun env).2 = .ok ⟨none, true, "Verification step passed"⟩ ∧
    ∀ i, i < 5 → Ev.branchStart i ∈ (verifyStepRun env).1 := by
  constructor
  · simp [verifyStepRun, h]
  · intro i hi
    simp only [verifyStepRun, h, if_true]
    interval_cases i <;>
      simp [List.mem_cons, List.mem_append, branchStart_mem_verifyBranch]

/-- Witness for C6: a run in which every branch raises internally still
returns success with all five branches attempted. -/
theorem verification_handler_best_effort_witness :
    (verifyStepRun { preambleOk := true, branchThrows := fun _ => true }).2 =
      .ok ⟨none, true, "Verification step passed"⟩ ∧
    ∀ i, i < 5 →
      Ev.branchStart i ∈
        (verifyStepRun { preambleOk := true, branchThrows := fun _ => true }).1 :=
  verification_handler_best_effort { preambleOk := true, branchThrows := fun _ => true } rfl

/-! ## Theorems for claim C10 -/

/-- Claim C10: the two "already authenticated" detections disagree on the
tenant requirement — `check_logged_in` reports the session as valid for
any final URL on `admanager.google.com` even when the network id is absent
from the URL, whereas `_login`'s terminal success additionally requires
the network id in the final URL and fails otherwise. -/
theorem tenant_check_disagreement (url network : String)
    (h1 : strIn "accounts.google.com" url = false)
    (h2 : strIn "admanager.google.com" url = true)
    (h3 : strIn network url = false) :
    (checkLoggedIn network (mkCheckUrlEnv url)).2 = .ok true ∧
    (loginAttempt network (mkLoginUrlEnv url)).2 =
      .ok ⟨none, false,
        "Login verification failed. Expected admanager with network \x27" ++ network ++
          "\x27, got: " ++ url⟩ := by
  constructor
  · simp [checkLoggedIn, mkCheckUrlEnv, checkVerdict, h1, h2, h3]
  · simp [loginAttempt, mkLoginUrlEnv, finalCheck, h1, h2, h3]

/-- Witness for C10: a concrete Ad Manager URL without the network id. -/
theorem tenant_check_disagreement_witness :
    (checkLoggedIn "23128820367"
        (mkCheckUrlEnv "https://admanager.google.com/home")).2 = .ok true ∧
    (loginAttempt "23128820367"
        (mkLoginUrlEnv "https://admanager.google.com/home")).2 =
      .ok ⟨none, false,
        "Login verification failed. Expected admanager with network \x2723128820367\x27, got: https://admanager.google.com/home"⟩ := by
  have h := tenant_check_disagreement "https://admanager.google.com/home" "23128820367"
    (by decide) (by decide) (by decide)
  exact ⟨h.1, h.2⟩

/-! ## Theorems for claim C5 -/

/-- Counterexample to claim C5: in `check_logged_in` the browser launch
happens before the `try` block (`check_login.py` lines 48-63), so a launch
failure escapes the operation as an exception instead of being normalized
to a returned boolean. -/
theorem check_login_launch_error_escapes :
    (checkLoggedIn "23128820367" launchFailCheckEnv).2 = .error "browser launch failed" :=
  rfl

/-- Claim C5 as amended: `login_only` and `create_url` catch every
internal exception and normalize it to a returned result value; of
`check_logged_in`'s body, only the part inside its `try` block is
normalized (to a returned boolean) — the profile-directory creation and
the browser launch run before the `try`, so the normalization guarantee
for `check_logged_in` holds only when those steps (and the browser close)
do not raise. -/
theorem exception_normalization_amended :
    (∀ net (env : LoginOnlyEnv), ∃ r, loginOnly net env = .ok r) ∧
    (∀ net data (env : CreateEnv), ∃ r, createUrl net data env = .ok r) ∧
    (∀ net (env : CheckEnv), env.mkdirOk = true → env.launchOk = true →
      env.closeOk = true → ∃ b, (checkLoggedIn net env).2 = .ok b) := by
  refine ⟨?_, ?_, ?_⟩
  · intro net env
    cases h : loginOnlyBody net env with
    | ok r => exact ⟨r, by simp [loginOnly, h]⟩
    | error e =>
      exact ⟨⟨none, false, "Demo login error: " ++ e⟩, by simp [loginOnly, h]⟩
  · intro net data env
    cases h : createUrlBody net data env with
    | ok r => exact ⟨r, by simp [createUrl, h]⟩
    | error e =>
      exact ⟨⟨none, false, "Error creating URL: " ++ e⟩, by simp [createUrl, h]⟩
  · intro net env h1 h2 h3
    cases hg : env.gotoOk
    · exact ⟨false, by simp [checkLoggedIn, h1, h2, h3, hg]⟩
    · exact ⟨checkVerdict env.finalUrl net, by simp [checkLoggedIn, h1, h2, h3, hg]⟩

/-- Witness for the amended C5: `check_logged_in` with a healthy
environment returns a boolean. -/
theorem exception_normalization_amended_witness :
    ∃ b, (checkLoggedIn "23128820367"
        (mkCheckUrlEnv "https://admanager.google.com/23128820367")).2 = .ok b :=
  exception_normalization_amended.2.2 "23128820367"
    (mkCheckUrlEnv "https://admanager.google.com/23128820367") rfl rfl rfl

/-! ## Theorems for claim C7 -/

/-- Counterexample to claim C7: a terminal failed login attempt (failure
of the email step, returned as an early failure result from `_login`)
captures no screenshot at all. -/
theorem login_failure_without_screenshot :
    (loginAttempt "23128820367" emailFailEnv).2 =
      .ok ⟨none, false, "Failed at email step: timeout"⟩ ∧
    (loginAttempt "23128820367" emailFailEnv).1 =
      [Ev.goto "https://admanager.google.com/23128820367", Ev.emailStep] ∧
    (loginAttempt "23128820367" emailFailEnv).1.filter isShot = [] := by
  refine ⟨by rfl, by decide, by decide⟩

/-- Claim C7 as amended: in `_login` a full-page screenshot is captured
only when the attempt fails with an exception reaching the outer handler —
failures returned as early results (email/password/verification/tenant
checks) capture no screenshot — and a failure of that capture is itself
fatal: the exception escapes `_login` and aborts the remaining retry
attempts.  In `_create_url_safe` the handler's screenshot is attempted on
any caught failure and a capture failure there is logged and ignored
without changing the operation's result. -/
theorem failure_screenshot_amended :
    (∀ net (env : LoginEnv), env.gotoOk = false → env.screenshotOk = true →
      (loginAttempt net env).1 = [Ev.screenshot "login.png"] ∧
      (loginAttempt net env).2 =
        .ok ⟨none, false, "Authentication error: " ++ env.gotoErr⟩) ∧
    (∀ net (env : LoginEnv), env.gotoOk = true →
      strIn "accounts.google.com" env.urlAfterGoto = true → env.emailOk = false →
      (loginAttempt net env).1.filter isShot = []) ∧
    (∀ net (env : LoginEnv), env.gotoOk = false → env.screenshotOk = false →
      (loginWithRetry fun _ => loginAttempt net env).2 = .error "screenshot failed" ∧
      (loginWithRetry fun _ => loginAttempt net env).1 =
        [RetryEv.attempt 0 (loginAttempt net env).1]) ∧
    (∀ net data (env : CreateSafeEnv), env.gotoOk = false →
      (createUrlSafe net data { env with screenshotOk := true }).2 =
        (createUrlSafe net data { env with screenshotOk := false }).2 ∧
      (createUrlSafe net data env).2 =
        ⟨none, false, "Failed to create URL: " ++ env.gotoErr⟩) := by
  refine ⟨?_, ?_, ?_, ?_⟩
  · intro net env hg hs
    constructor <;> simp [loginAttempt, hg, loginHandler, hs]
  · intro net env hg hacc he
    simp [loginAttempt, hg, hacc, he, isShot]
  · intro net env hg hs
    have hatt : (loginAttempt net env).2 = .error "screenshot failed" := by
      simp [loginAttempt, hg, loginHandler, hs]
    constructor <;>
      simp only [loginWithRetry, show maxRetries = 4 + 1 from rfl,
        loginWithRetryFrom, hatt]
  · intro net data env hg
    constructor
    · simp [createUrlSafe, hg, createUrlFailHandler_snd]
    · simp [createUrlSafe, hg, createUrlFailHandler_snd]

/-- Witness for the amended C7: a navigation failure with a working
handler screenshot. -/
theorem failure_screenshot_amended_witness :
    (loginAttempt "23128820367" gotoFailEnv).1 = [Ev.screenshot "login.png"] ∧
    (loginAttempt "23128820367" gotoFailEnv).2 =
      .ok ⟨none, false, "Authentication error: net down"⟩ :=
  failure_screenshot_amended.1 "23128820367" gotoFailEnv rfl rfl

/-! ## Theorems for claim C8 -/

/-- Counterexample to claim C8: with an out-of-enumeration
`inventory_type`, the create-URL operation does fail with the validation
error, but only after UI interactions have been performed — the
"Novo URL" button has been clicked and the URL field filled. -/
theorem invalid_inventory_after_ui_interaction :
    (createUrlSafe "23128820367" invalidInventoryData (happyCreateEnv "23128820367")).2 =
      ⟨none, false,
        "Failed to configure URL: Invalid inventory type. Must be one of: [\x27Display\x27, \x27Vídeo in-stream\x27]"⟩ ∧
    Ev.clicked 0 1 ∈
      (createUrlSafe "23128820367" invalidInventoryData (happyCreateEnv "23128820367")).1 ∧
    Ev.fillUrl "https://example.com" ∈
      (createUrlSafe "23128820367" invalidInventoryData (happyCreateEnv "23128820367")).1 := by
  refine ⟨by decide, by decide, by decide⟩

/-- Claim C8 as amended: an out-of-enumeration `inventory_type` or
`brand_type` makes `configure_url` raise a validation error before that
field's own UI control is touched (no dropdown, radio or save interaction
for it), but interactions of the earlier form steps — the create-button
click, the URL field fill, and for `brand_type` also the inventory
selection — have already been performed. -/
theorem validation_failfast_amended :
    (∀ (data : URLData) (env : CreateSafeEnv) u t,
      data.url = some u → u ≠ "" → env.urlFillOk = true →
      data.inventory_type = some t → t ≠ "Display" → t ≠ "Vídeo in-stream" →
      (configureUrl data env).2 =
        .error "Invalid inventory type. Must be one of: [\x27Display\x27, \x27Vídeo in-stream\x27]" ∧
      (configureUrl data env).1 = [Ev.fillUrl u]) ∧
    (∀ (data : URLData) (env : CreateSafeEnv) u t b,
      data.url = some u → u ≠ "" → env.urlFillOk = true →
      data.inventory_type = some t → (t = "Display" ∨ t = "Vídeo in-stream") →
      env.invOk = true →
      data.brand_type = some b → b ≠ "Com marca" → b ≠ "semitransparente" →
      (configureUrl data env).2 =
        .error "Invalid brand type. Must be one of: [\x27Com marca\x27, \x27semitransparente\x27]" ∧
      (configureUrl data env).1 = [Ev.fillUrl u, Ev.invInteract t]) := by
  constructor
  · intro data env u t hu hne hfill ht h1 h2
    constructor <;>
      simp [configureUrl, setUrlField, setInventoryType, hu, hne, hfill, ht, h1, h2]
  · intro data env u t b hu hne hfill ht htv hinv hb h1 h2
    constructor <;>
      simp [configureUrl, setUrlField, setInventoryType, setBrandType,
        hu, hne, hfill, ht, htv, hinv, hb, h1, h2]

/-- Witness for the amended C8: the invalid-inventory record evaluated
through `configure_url`. -/
theorem validation_failfast_amended_witness :
    (configureUrl invalidInventoryData (happyCreateEnv "23128820367")).2 =
      .error "Invalid inventory type. Must be one of: [\x27Display\x27, \x27Vídeo in-stream\x27]" ∧
    (configureUrl invalidInventoryData (happyCreateEnv "23128820367")).1 =
      [Ev.fillUrl "https://example.com"] :=
  validation_failfast_amended.1 invalidInventoryData (happyCreateEnv "23128820367")
    "https://example.com" "Banana" rfl (by decide) rfl rfl (by decide) (by decide)

/-! ## Theorems for claim C9 -/

/-- Claim C9: the candidate strategies for the create-action button are
tried in their fixed priority order and the first that succeeds performs
the interaction and ends the operation — if strategy 3 succeeds after
strategies 1 and 2 fail, strategy 4 is never invoked — and if every
strategy fails, the whole operation is retried up to 3 attempts before
raising a failure identifying the control. -/
theorem selector_strategy_order :
    (∀ (env : ButtonEnv), env.pageClosed = false →
      env.strat 0 1 = false → env.strat 0 2 = false → env.strat 0 3 = true →
      createUrlButton env =
        ([Ev.strategy 0 1, Ev.strategy 0 2, Ev.strategy 0 3, Ev.clicked 0 3], .ok ())) ∧
    (∀ (env : ButtonEnv), env.pageClosed = false →
      (∀ a j, env.strat a j = false) →
      (createUrlButton env).2 =
        .error "Could not find \x27Novo URL\x27 button after 3 attempts" ∧
      (createUrlButton env).1 =
        [Ev.strategy 0 1, Ev.strategy 0 2, Ev.strategy 0 3, Ev.strategy 0 4,
         Ev.delay 1000,
         Ev.strategy 1 1, Ev.strategy 1 2, Ev.strategy 1 3, Ev.strategy 1 4,
         Ev.delay 1000,
         Ev.strategy 2 1, Ev.strategy 2 2, Ev.strategy 2 3, Ev.strategy 2 4]) := by
  constructor
  · intro env hpc h1 h2 h3
    simp [createUrlButton, hpc, show (3 : Nat) = 2 + 1 from rfl, buttonLoop,
      tryStrategies, h1, h2, h3]
  · intro env hpc h
    constructor <;>
      simp [createUrlButton, hpc, buttonLoop, tryStrategies, h]

/-- Witness for C9: an environment where only strategy 3 works, and one
where every strategy fails. -/
theorem selector_strategy_order_witness :
    createUrlButton stratThreeEnv =
      ([Ev.strategy 0 1, Ev.strategy 0 2, Ev.strategy 0 3, Ev.clicked 0 3], .ok ()) ∧
    (createUrlButton stratNoneEnv).2 =
      .error "Could not find \x27Novo URL\x27 button after 3 attempts" :=
  ⟨selector_strategy_order.1 stratThreeEnv rfl rfl rfl rfl,
   (selector_strategy_order.2 stratNoneEnv rfl (fun _ _ => rfl)).1⟩

end Login
